import Mathlib

/-!
Shallow embedding of the match event ledger and derived-score logic of
`src/src/app/(protected)/games/[id]/page.tsx` (the game detail page of the
qfl-admin repository).

Conventions of the embedding:
* JS numbers that hold ids, scores, halves and minutes are modelled as `Int`.
* Nullable fields (`number | null`) are `Option Int`; nullable strings are
  `Option String`.
* The event-type select offers the closed set `EVENT_TYPES`; it is modelled
  as the inductive `EventType`.
* Text inputs holding a numeral-or-empty string (`addEvtMinute`,
  `addEvtPlayerId`, ...) are modelled as `Option Int`: `none` is the empty
  string (falsy in JS, matching no lineup entry), `some n` is the numeral
  string for `n`.
* The server is external to the repository; the happy path of each fetch is
  modelled as the corresponding pure state change (POST events appends a row
  with a fresh id, DELETE removes it, PATCH games writes the posted fields,
  the subsequent re-fetches reload that state into the client).
* Display-only fields that no modelled branch reads (team names, dates,
  video urls, ...) are omitted from the records.
-/

/-- The closed set of event types offered by the event-type select
(`EVENT_TYPES` in the source). -/
inductive EventType where
  | goal
  | own_goal
  | penalty
  | missed_penalty
  | yellow_card
  | second_yellow
  | red_card
  | substitution
  | assist
deriving DecidableEq

/-- `SCORE_EVENT_TYPES = ['goal', 'own_goal', 'penalty']`. -/
def SCORE_EVENT_TYPES : List EventType := [.goal, .own_goal, .penalty]

/-- The fields of the `GameDetail` row that the modelled handlers read or
write: team identities, the stored scoreboard, and the lifecycle status. -/
structure GameDetail where
  id : Int
  home_team_id : Option Int
  away_team_id : Option Int
  home_score : Option Int
  away_score : Option Int
  status : String
deriving DecidableEq

/-- One row of the lineup table (`LineupItem` in the source). -/
structure LineupItem where
  id : Int
  player_id : Int
  player_name : Option String
  team_id : Int
  lineup_type : String
  shirt_number : Option Int
  is_captain : Bool
  amplua : Option String
  field_position : Option String
deriving DecidableEq

/-- One row of the events table (`EventItem` in the source). -/
structure EventItem where
  id : Int
  half : Int
  minute : Int
  event_type : EventType
  team_id : Option Int
  player_id : Option Int
  player_name : Option String
  player_number : Option Int
  player2_id : Option Int
  player2_name : Option String
  assist_player_id : Option Int
  assist_player_name : Option String
deriving DecidableEq

/-- The client page state the event/lineup handlers operate on: the loaded
game row, the lineup list and the event list. -/
structure PageState where
  game : GameDetail
  lineup : List LineupItem
  events : List EventItem
deriving DecidableEq

/-- The `addEvtTeam` select: `'home' | 'away' | ''`. -/
inductive TeamSel where
  | home
  | away
  | empty
deriving DecidableEq

/-- The add-event form fields read by `addEvent`.  `minute` is `none` when
the minute input is empty (the only locally rejected case); the player id
fields are `none` when the corresponding combobox holds the empty value. -/
structure EventForm where
  half : Int
  minute : Option Int
  eventType : EventType
  team : TeamSel
  playerId : Option Int
  player2Id : Option Int
  assistId : Option Int
deriving DecidableEq

/-- `findInLineup` inside `addEvent`:
`(id) => lineup.find(e => String(e.player_id) === id)`; the empty string
matches no entry. -/
def findInLineup (lineup : List LineupItem) (id : Option Int) :
    Option LineupItem :=
  match id with
  | none => none
  | some n => lineup.find? (fun e => e.player_id == n)

/-- One iteration of the score-recomputation loop in `deleteEvent`
(lines 467-475): goal/penalty credit the side whose team id equals the
event's `team_id`; own_goal credits the other side. -/
def scoreStep (g : GameDetail) (acc : Int × Int) (ev : EventItem) :
    Int × Int :=
  match ev.event_type with
  | .goal | .penalty =>
      if ev.team_id = g.home_team_id then (acc.1 + 1, acc.2)
      else if ev.team_id = g.away_team_id then (acc.1, acc.2 + 1)
      else acc
  | .own_goal =>
      if ev.team_id = g.home_team_id then (acc.1, acc.2 + 1)
      else if ev.team_id = g.away_team_id then (acc.1 + 1, acc.2)
      else acc
  | _ => acc

/-- The full recomputation loop of `deleteEvent`: `let home = 0, away = 0`
followed by the `for (const ev of remaining)` accumulation. -/
def recomputeScore (g : GameDetail) (evs : List EventItem) : Int × Int :=
  evs.foldl (scoreStep g) (0, 0)

/-- `patchScore(home, away)`: PATCH the game with both scoreboard fields and
re-fetch it, i.e. store `some home` / `some away` on the client game row. -/
def patchScore (g : GameDetail) (home away : Int) : GameDetail :=
  { g with home_score := some home, away_score := some away }

/-- The write-back step of score reconciliation: recompute the scoreboard
from the current ledger and patch it onto the game (the tail of
`deleteEvent`'s score branch, factored out). -/
def reconcile (s : PageState) : PageState :=
  let ha := recomputeScore s.game s.events
  { s with game := patchScore s.game ha.1 ha.2 }

/-- `deleteEvent(eventId)` (lines 458-484): look the event up in the client
list, DELETE it server-side, and if it was score-affecting recompute the
scoreboard over the remaining events and PATCH it; the final `fetchEvents`
reloads the list without the deleted row. -/
def deleteEvent (s : PageState) (eventId : Int) : PageState :=
  let evtToDelete := s.events.find? (fun e => e.id == eventId)
  let events' := s.events.filter (fun e => !(e.id == eventId))
  match evtToDelete with
  | some ev =>
      if ev.event_type ∈ SCORE_EVENT_TYPES then
        let ha := recomputeScore s.game events'
        { s with game := patchScore s.game ha.1 ha.2, events := events' }
      else { s with events := events' }
  | none => { s with events := events' }

/-- `addEvent()` (lines 487-543).  An empty minute input is rejected locally
with the message `Укажите минуту` and nothing is posted.  Otherwise the
event is POSTed (participants resolved through `findInLineup`, unresolved
ones posted as null) and, for a score-affecting type, the stored scoreboard
is incremented and PATCHed.  Line 525 re-reads `addEvtTeam` from the render
closure (the `setAddEvtTeam('')` on line 523 does not change it) through a
two-way ternary, so the empty team choice resolves to the away team there,
while line 495's three-way ternary posted the event with `team_id` null. -/
def addEvent (s : PageState) (f : EventForm) (freshId : Int) :
    Except String PageState :=
  match f.minute with
  | none => .error "Укажите минуту"
  | some minute =>
      let teamId : Option Int :=
        match f.team with
        | .home => s.game.home_team_id
        | .away => s.game.away_team_id
        | .empty => none
      let p1 := findInLineup s.lineup f.playerId
      let p2 := findInLineup s.lineup f.player2Id
      let pa := findInLineup s.lineup f.assistId
      let ev : EventItem :=
        { id := freshId
          half := f.half
          minute := minute
          event_type := f.eventType
          team_id := teamId
          player_id := p1.map (fun e => e.player_id)
          player_name := p1.bind (fun e => e.player_name)
          player_number := p1.bind (fun e => e.shirt_number)
          player2_id := p2.map (fun e => e.player_id)
          player2_name := p2.bind (fun e => e.player_name)
          assist_player_id := pa.map (fun e => e.player_id)
          assist_player_name := pa.bind (fun e => e.player_name) }
      let game' :=
        if f.eventType ∈ SCORE_EVENT_TYPES then
          let evtTeamId : Option Int :=
            match f.team with
            | .home => s.game.home_team_id
            | _ => s.game.away_team_id
          let newHome := s.game.home_score.getD 0
          let newAway := s.game.away_score.getD 0
          let ha :=
            if f.eventType = .goal ∨ f.eventType = .penalty then
              if evtTeamId = s.game.home_team_id then (newHome + 1, newAway)
              else if evtTeamId = s.game.away_team_id then
                (newHome, newAway + 1)
              else (newHome, newAway)
            else if f.eventType = .own_goal then
              if evtTeamId = s.game.home_team_id then (newHome, newAway + 1)
              else if evtTeamId = s.game.away_team_id then
                (newHome + 1, newAway)
              else (newHome, newAway)
            else (newHome, newAway)
          patchScore s.game ha.1 ha.2
        else s.game
      .ok { s with game := game', events := s.events ++ [ev] }

/-- `deleteLineup(lineupId)` (lines 356-367): DELETE the entry and reload
the lineup list. -/
def deleteLineup (s : PageState) (lineupId : Int) : PageState :=
  { s with lineup := s.lineup.filter (fun e => !(e.id == lineupId)) }

/-- `EVENT_CONFIG[type].playerFrom`. -/
inductive PlayerFrom where
  | team
  | opposite
  | starters
deriving DecidableEq

/-- One entry of the `EVENT_CONFIG` table. -/
structure EventConfig where
  playerLabel : String
  playerFrom : PlayerFrom
  showAssist : Bool
  showPlayer2 : Bool
  player2Label : Option String
deriving DecidableEq

/-- The `EVENT_CONFIG` table (lines 102-118). -/
def EVENT_CONFIG : EventType → EventConfig
  | .goal =>
      { playerLabel := "Scorer", playerFrom := .team, showAssist := true,
        showPlayer2 := false, player2Label := none }
  | .own_goal =>
      { playerLabel := "Player", playerFrom := .opposite, showAssist := false,
        showPlayer2 := false, player2Label := none }
  | .penalty =>
      { playerLabel := "Taker", playerFrom := .team, showAssist := false,
        showPlayer2 := false, player2Label := none }
  | .missed_penalty =>
      { playerLabel := "Taker", playerFrom := .team, showAssist := false,
        showPlayer2 := false, player2Label := none }
  | .yellow_card =>
      { playerLabel := "Player", playerFrom := .team, showAssist := false,
        showPlayer2 := false, player2Label := none }
  | .second_yellow =>
      { playerLabel := "Player", playerFrom := .team, showAssist := false,
        showPlayer2 := false, player2Label := none }
  | .red_card =>
      { playerLabel := "Player", playerFrom := .team, showAssist := false,
        showPlayer2 := false, player2Label := none }
  | .substitution =>
      { playerLabel := "Out (стартер)", playerFrom := .starters,
        showAssist := false, showPlayer2 := true,
        player2Label := some "In (замена)" }
  | .assist =>
      { playerLabel := "Player", playerFrom := .team, showAssist := false,
        showPlayer2 := false, player2Label := none }

/-- An option of a player combobox: `{ value, label }`. -/
structure SelectOption where
  value : String
  label : String
deriving DecidableEq

/-- `lineupOptions(teamId, onlyType?)` (lines 585-596): filter the lineup to
the given team (and role when `onlyType` is passed) and render the options,
with a leading empty option. -/
def lineupOptions (lineup : List LineupItem) (teamId : Option Int)
    (onlyType : Option String) : List SelectOption :=
  let entries := lineup.filter (fun e =>
    (some e.team_id == teamId) &&
      (onlyType.isNone || onlyType == some e.lineup_type))
  { value := "", label := "—" } ::
    entries.map (fun e =>
      { value := toString e.player_id
        label :=
          (match e.shirt_number with
            | some n => "#" ++ toString n ++ " "
            | none => "") ++
          (e.player_name.getD ("#" ++ toString e.player_id)) ++
          (match e.amplua with
            | some a => if a = "" then "" else " (" ++ a ++ ")"
            | none => "") })

/-- `evtTeamId` (line 582): the three-way ternary resolving the team select
to a team id for the form helpers. -/
def evtTeamIdOf (g : GameDetail) (team : TeamSel) : Option Int :=
  match team with
  | .home => g.home_team_id
  | .away => g.away_team_id
  | .empty => none

/-- `evtOppositeTeamId` (line 583). -/
def evtOppositeTeamIdOf (g : GameDetail) (team : TeamSel) : Option Int :=
  match team with
  | .home => g.away_team_id
  | .away => g.home_team_id
  | .empty => none

/-- `playerOptions` (lines 610-614): the primary-participant combobox
contents, driven by `EVENT_CONFIG[type].playerFrom`. -/
def playerOptionsFor (lineup : List LineupItem) (t : EventType)
    (evtTeamId evtOppTeamId : Option Int) : List SelectOption :=
  match (EVENT_CONFIG t).playerFrom with
  | .opposite => lineupOptions lineup evtOppTeamId none
  | .starters => lineupOptions lineup evtTeamId (some "starter")
  | .team => lineupOptions lineup evtTeamId none

/-! ### Helper lemmas about the score fold -/

/-- The per-event contribution of one event to the recomputed scoreboard. -/
def scoreDelta (g : GameDetail) (ev : EventItem) : Int × Int :=
  match ev.event_type with
  | .goal | .penalty =>
      if ev.team_id = g.home_team_id then (1, 0)
      else if ev.team_id = g.away_team_id then (0, 1)
      else (0, 0)
  | .own_goal =>
      if ev.team_id = g.home_team_id then (0, 1)
      else if ev.team_id = g.away_team_id then (1, 0)
      else (0, 0)
  | _ => (0, 0)

theorem scoreStep_eq_add (g : GameDetail) (acc : Int × Int) (ev : EventItem) :
    scoreStep g acc ev =
      (acc.1 + (scoreDelta g ev).1, acc.2 + (scoreDelta g ev).2) := by
  cases hev : ev.event_type <;>
    simp only [scoreStep, scoreDelta, hev] <;>
    first
      | (split_ifs <;> simp)
      | simp

theorem scoreStep_comm (g : GameDetail) (acc : Int × Int)
    (e1 e2 : EventItem) :
    scoreStep g (scoreStep g acc e1) e2 =
      scoreStep g (scoreStep g acc e2) e1 := by
  simp only [scoreStep_eq_add, Prod.mk.injEq]
  constructor <;> ring

theorem foldl_scoreStep_acc (g : GameDetail) (l : List EventItem) :
    ∀ acc : Int × Int,
      l.foldl (scoreStep g) acc =
        (acc.1 + (recomputeScore g l).1, acc.2 + (recomputeScore g l).2) := by
  induction l with
  | nil => intro acc; simp [recomputeScore]
  | cons e t ih =>
      intro acc
      simp only [recomputeScore, List.foldl_cons] at *
      rw [ih (scoreStep g acc e), ih (scoreStep g (0, 0) e)]
      simp only [scoreStep_eq_add, Prod.mk.injEq]
      constructor <;> ring

theorem recomputeScore_cons (g : GameDetail) (e : EventItem)
    (t : List EventItem) :
    recomputeScore g (e :: t) =
      ((scoreDelta g e).1 + (recomputeScore g t).1,
       (scoreDelta g e).2 + (recomputeScore g t).2) := by
  simp only [recomputeScore, List.foldl_cons]
  rw [foldl_scoreStep_acc]
  simp [scoreStep_eq_add, recomputeScore]

/-- `recomputeScore` reads the game row only through the two team ids. -/
theorem recomputeScore_teams_congr (g g' : GameDetail)
    (h1 : g.home_team_id = g'.home_team_id)
    (h2 : g.away_team_id = g'.away_team_id) (l : List EventItem) :
    recomputeScore g l = recomputeScore g' l := by
  induction l with
  | nil => rfl
  | cons e t ih =>
      rw [recomputeScore_cons, recomputeScore_cons, ih]
      have hd : scoreDelta g e = scoreDelta g' e := by
        cases hev : e.event_type <;>
          simp only [scoreDelta, hev, h1, h2]
      rw [hd]

/-- The recomputed scoreboard is invariant under permutation of the event
list. -/
theorem recomputeScore_perm (g : GameDetail) {l1 l2 : List EventItem}
    (p : l1.Perm l2) : recomputeScore g l1 = recomputeScore g l2 := by
  induction p with
  | nil => rfl
  | cons e _ ih => rw [recomputeScore_cons, recomputeScore_cons, ih]
  | swap x y t =>
      simp only [recomputeScore, List.foldl_cons]
      rw [scoreStep_comm]
  | trans _ _ ih1 ih2 => rw [ih1, ih2]

/-- Counting predicate: a goal or penalty attributed to team id `t`. -/
def isGoalPenaltyFor (t : Option Int) (e : EventItem) : Bool :=
  (e.event_type == .goal || e.event_type == .penalty) && (e.team_id == t)

/-- Counting predicate: an own goal attributed to team id `t`. -/
def isOwnGoalFor (t : Option Int) (e : EventItem) : Bool :=
  (e.event_type == .own_goal) && (e.team_id == t)

theorem scoreDelta_eq_counts (g : GameDetail)
    (hne : g.home_team_id ≠ g.away_team_id) (e : EventItem) :
    scoreDelta g e =
      ((if isGoalPenaltyFor g.home_team_id e then 1 else 0) +
         (if isOwnGoalFor g.away_team_id e then 1 else 0),
       (if isGoalPenaltyFor g.away_team_id e then 1 else 0) +
         (if isOwnGoalFor g.home_team_id e then 1 else 0)) := by
  cases hev : e.event_type <;>
    by_cases hh : e.team_id = g.home_team_id <;>
    by_cases ha : e.team_id = g.away_team_id <;>
    simp [scoreDelta, isGoalPenaltyFor, isOwnGoalFor, hev, hh, ha,
      hne, Ne.symm hne]

/-- With distinct home/away team ids, the recomputation loop computes
exactly the counting formula of the consistency invariant. -/
theorem recomputeScore_eq_counts (g : GameDetail)
    (hne : g.home_team_id ≠ g.away_team_id) (l : List EventItem) :
    recomputeScore g l =
      ((l.countP (isGoalPenaltyFor g.home_team_id) : Int) +
         (l.countP (isOwnGoalFor g.away_team_id) : Int),
       (l.countP (isGoalPenaltyFor g.away_team_id) : Int) +
         (l.countP (isOwnGoalFor g.home_team_id) : Int)) := by
  induction l with
  | nil => simp [recomputeScore]
  | cons e t ih =>
      rw [recomputeScore_cons, ih, scoreDelta_eq_counts g hne e]
      simp only [List.countP_cons, Prod.mk.injEq]
      constructor <;> (push_cast; split_ifs <;> ring)

/-! ### Claim theorems -/

/-- Claim C1: after deleting a score-affecting event, the scoreboard written
back by the recomputation satisfies
`home_score = count(goal|penalty attributed to home) + count(own_goal
attributed to away)`, and symmetrically for `away_score`, over the mutated
ledger. -/
theorem c1_scoreboard_consistency_after_delete (s : PageState) (eid : Int)
    (ev : EventItem)
    (hne : s.game.home_team_id ≠ s.game.away_team_id)
    (hfind : s.events.find? (fun e => e.id == eid) = some ev)
    (hsc : ev.event_type ∈ SCORE_EVENT_TYPES) :
    (deleteEvent s eid).game.home_score =
      some (((deleteEvent s eid).events.countP
               (isGoalPenaltyFor s.game.home_team_id) : Int) +
            ((deleteEvent s eid).events.countP
               (isOwnGoalFor s.game.away_team_id) : Int)) ∧
    (deleteEvent s eid).game.away_score =
      some (((deleteEvent s eid).events.countP
               (isGoalPenaltyFor s.game.away_team_id) : Int) +
            ((deleteEvent s eid).events.countP
               (isOwnGoalFor s.game.home_team_id) : Int)) := by
  simp only [deleteEvent, hfind, if_pos hsc, patchScore]
  rw [recomputeScore_eq_counts s.game hne]
  exact ⟨rfl, rfl⟩

/-- Witness for C1 at a concrete state: home team 10, away team 20, three
events in the ledger, deleting the penalty (id 2). -/
theorem c1_witness :
    (deleteEvent
        ⟨⟨1, some 10, some 20, some 2, some 1, "live"⟩, [],
          [⟨1, 1, 10, .goal, some 10, none, none, none, none, none, none,
             none⟩,
           ⟨2, 1, 20, .penalty, some 20, none, none, none, none, none, none,
             none⟩,
           ⟨3, 2, 50, .own_goal, some 10, none, none, none, none, none, none,
             none⟩]⟩ 2).game.home_score =
      some (((deleteEvent
        ⟨⟨1, some 10, some 20, some 2, some 1, "live"⟩, [],
          [⟨1, 1, 10, .goal, some 10, none, none, none, none, none, none,
             none⟩,
           ⟨2, 1, 20, .penalty, some 20, none, none, none, none, none, none,
             none⟩,
           ⟨3, 2, 50, .own_goal, some 10, none, none, none, none, none, none,
             none⟩]⟩ 2).events.countP (isGoalPenaltyFor (some 10)) : Int) +
        ((deleteEvent
        ⟨⟨1, some 10, some 20, some 2, some 1, "live"⟩, [],
          [⟨1, 1, 10, .goal, some 10, none, none, none, none, none, none,
             none⟩,
           ⟨2, 1, 20, .penalty, some 20, none, none, none, none, none, none,
             none⟩,
           ⟨3, 2, 50, .own_goal, some 10, none, none, none, none, none, none,
             none⟩]⟩ 2).events.countP (isOwnGoalFor (some 20)) : Int)) :=
  (c1_scoreboard_consistency_after_delete
    ⟨⟨1, some 10, some 20, some 2, some 1, "live"⟩, [],
      [⟨1, 1, 10, .goal, some 10, none, none, none, none, none, none, none⟩,
       ⟨2, 1, 20, .penalty, some 20, none, none, none, none, none, none,
         none⟩,
       ⟨3, 2, 50, .own_goal, some 10, none, none, none, none, none, none,
         none⟩]⟩ 2
    ⟨2, 1, 20, .penalty, some 20, none, none, none, none, none, none, none⟩
    (by decide) (by decide) (by decide)).1

/-- Claim C6: the reconciliation write-back is idempotent (recomputing any
number of times yields the same scoreboard), and the recomputed pair is
independent of the order of the events in the ledger. -/
theorem c6_reconcile_idempotent_and_order_independent :
    (∀ s : PageState, reconcile (reconcile s) = reconcile s) ∧
    (∀ (g : GameDetail) (l1 l2 : List EventItem), l1.Perm l2 →
      recomputeScore g l1 = recomputeScore g l2) := by
  constructor
  · intro s
    have hA : recomputeScore
        (patchScore s.game (recomputeScore s.game s.events).1
          (recomputeScore s.game s.events).2) s.events =
        recomputeScore s.game s.events :=
      recomputeScore_teams_congr _ _ rfl rfl _
    simp only [reconcile, patchScore]
    simp only [patchScore] at hA
    rw [hA]
  · intro g l1 l2 p
    exact recomputeScore_perm g p

/-- Witness for C6: swapping two concrete events does not change the
recomputed scoreboard. -/
theorem c6_witness :
    recomputeScore ⟨1, some 10, some 20, some 0, some 0, "live"⟩
        [⟨1, 1, 10, .goal, some 10, none, none, none, none, none, none,
           none⟩,
         ⟨2, 1, 20, .own_goal, some 20, none, none, none, none, none, none,
           none⟩] =
      recomputeScore ⟨1, some 10, some 20, some 0, some 0, "live"⟩
        [⟨2, 1, 20, .own_goal, some 20, none, none, none, none, none, none,
           none⟩,
         ⟨1, 1, 10, .goal, some 10, none, none, none, none, none, none,
           none⟩] :=
  c6_reconcile_idempotent_and_order_independent.2
    ⟨1, some 10, some 20, some 0, some 0, "live"⟩ _ _
    (List.Perm.swap
      (⟨2, 1, 20, .own_goal, some 20, none, none, none, none, none, none,
        none⟩ : EventItem)
      (⟨1, 1, 10, .goal, some 10, none, none, none, none, none, none,
        none⟩ : EventItem)
      [])

/-- Concrete scenario state for C3: home TeamA (id 1) vs away TeamB (id 2),
empty ledger, score (0,0), live match. -/
def c3_s0 : PageState :=
  ⟨⟨1, some 1, some 2, some 0, some 0, "live"⟩, [], []⟩

/-- The `goal, team=TeamA, minute=10` form of the C3 scenario. -/
def c3_goalForm : EventForm := ⟨1, some 10, .goal, .home, none, none, none⟩

/-- The `own_goal, team=TeamA, minute=20` form of the C3 scenario. -/
def c3_ownGoalForm : EventForm :=
  ⟨1, some 20, .own_goal, .home, none, none, none⟩

/-- Claim C3: the recomputation credits goal/penalty to the attributed side
and own_goal to the opposing side, and the concrete scenario
(0,0) → goal TeamA → (1,0) → own_goal TeamA → (1,1) → delete own_goal →
(1,0) plays out exactly so. -/
theorem c3_per_event_reconciliation_and_scenario :
    (∀ (g : GameDetail) (h a : Int) (ev : EventItem),
        ev.event_type = .goal ∨ ev.event_type = .penalty →
        ev.team_id = g.home_team_id →
        scoreStep g (h, a) ev = (h + 1, a)) ∧
    (∀ (g : GameDetail) (h a : Int) (ev : EventItem),
        ev.event_type = .goal ∨ ev.event_type = .penalty →
        ev.team_id = g.away_team_id → ev.team_id ≠ g.home_team_id →
        scoreStep g (h, a) ev = (h, a + 1)) ∧
    (∀ (g : GameDetail) (h a : Int) (ev : EventItem),
        ev.event_type = .own_goal →
        ev.team_id = g.home_team_id →
        scoreStep g (h, a) ev = (h, a + 1)) ∧
    (∀ (g : GameDetail) (h a : Int) (ev : EventItem),
        ev.event_type = .own_goal →
        ev.team_id = g.away_team_id → ev.team_id ≠ g.home_team_id →
        scoreStep g (h, a) ev = (h + 1, a)) ∧
    (addEvent c3_s0 c3_goalForm 1).map
        (fun t => (t.game.home_score, t.game.away_score)) =
      .ok (some 1, some 0) ∧
    (Except.bind (addEvent c3_s0 c3_goalForm 1)
        (fun t => addEvent t c3_ownGoalForm 2)).map
        (fun t => (t.game.home_score, t.game.away_score)) =
      .ok (some 1, some 1) ∧
    (Except.bind (addEvent c3_s0 c3_goalForm 1)
        (fun t => addEvent t c3_ownGoalForm 2)).map
        (fun t =>
          ((deleteEvent t 2).game.home_score,
           (deleteEvent t 2).game.away_score)) =
      .ok (some 1, some 0) := by
  refine ⟨?_, ?_, ?_, ?_, rfl, rfl, rfl⟩
  · intro g h a ev htype hteam
    rcases htype with h1 | h1 <;> simp [scoreStep, h1, hteam]
  · intro g h a ev htype hteam hnh
    have hn2 : ¬g.away_team_id = g.home_team_id := fun hh =>
      hnh (hteam.trans hh)
    rcases htype with h1 | h1 <;> simp [scoreStep, h1, hteam, hn2]
  · intro g h a ev htype hteam
    simp [scoreStep, htype, hteam]
  · intro g h a ev htype hteam hnh
    have hn2 : ¬g.away_team_id = g.home_team_id := fun hh =>
      hnh (hteam.trans hh)
    simp [scoreStep, htype, hteam, hn2]

/-- Witness for C3: a concrete goal attributed to the home side increments
the home score by one in the fold step. -/
theorem c3_witness :
    scoreStep ⟨1, some 1, some 2, some 0, some 0, "live"⟩ (0, 0)
        ⟨1, 1, 10, .goal, some 1, none, none, none, none, none, none, none⟩ =
      (1, 0) :=
  c3_per_event_reconciliation_and_scenario.1
    ⟨1, some 1, some 2, some 0, some 0, "live"⟩ 0 0
    ⟨1, 1, 10, .goal, some 1, none, none, none, none, none, none, none⟩
    (Or.inl rfl) rfl

/-- Claim C9: appending or deleting an event of a non-score-affecting type
(missed_penalty, cards, substitution, assist) leaves the stored game row —
in particular `home_score` and `away_score` — unchanged. -/
theorem c9_nonscore_types_leave_score_unchanged :
    (∀ (s : PageState) (f : EventForm) (i m : Int), f.minute = some m →
        f.eventType ∈ ([.missed_penalty, .yellow_card, .second_yellow,
          .red_card, .substitution, .assist] : List EventType) →
        ∃ s', addEvent s f i = .ok s' ∧ s'.game = s.game) ∧
    (∀ (s : PageState) (eid : Int) (ev : EventItem),
        s.events.find? (fun e => e.id == eid) = some ev →
        ev.event_type ∈ ([.missed_penalty, .yellow_card, .second_yellow,
          .red_card, .substitution, .assist] : List EventType) →
        (deleteEvent s eid).game = s.game) := by
  constructor
  · intro s f i m hm hns
    have hnotsc : f.eventType ∉ SCORE_EVENT_TYPES := by
      simp only [List.mem_cons, List.not_mem_nil, or_false] at hns
      rcases hns with h1 | h1 | h1 | h1 | h1 | h1 <;> rw [h1] <;> decide
    simp only [addEvent, hm, if_neg hnotsc]
    exact ⟨_, rfl, rfl⟩
  · intro s eid ev hfind hns
    have hnotsc : ev.event_type ∉ SCORE_EVENT_TYPES := by
      simp only [List.mem_cons, List.not_mem_nil, or_false] at hns
      rcases hns with h1 | h1 | h1 | h1 | h1 | h1 <;> rw [h1] <;> decide
    simp only [deleteEvent, hfind, if_neg hnotsc]

/-- Witness for C9 at a concrete state: appending a yellow card leaves the
game row untouched. -/
theorem c9_witness :
    ∃ s', addEvent ⟨⟨1, some 1, some 2, some 3, some 0, "live"⟩, [], []⟩
        ⟨1, some 41, .yellow_card, .home, none, none, none⟩ 7 = .ok s' ∧
      s'.game = (⟨⟨1, some 1, some 2, some 3, some 0, "live"⟩, [],
        []⟩ : PageState).game :=
  c9_nonscore_types_leave_score_unchanged.1
    ⟨⟨1, some 1, some 2, some 3, some 0, "live"⟩, [], []⟩
    ⟨1, some 41, .yellow_card, .home, none, none, none⟩ 7 41 rfl
    (by decide)

/-- Claim C10: appending a score-affecting event with the empty team choice
posts the event with `team_id` null, yet the score branch's two-way ternary
resolves the side to the away team, so the away score (goal/penalty) or the
home score (own_goal) is still incremented. -/
theorem c10_empty_team_still_increments (s : PageState) (f : EventForm)
    (i m : Int)
    (hne : s.game.home_team_id ≠ s.game.away_team_id)
    (hteam : f.team = .empty) (hm : f.minute = some m) :
    (f.eventType = .goal ∨ f.eventType = .penalty →
      ∃ s' ev, addEvent s f i = .ok s' ∧ s'.events = s.events ++ [ev] ∧
        ev.team_id = none ∧
        s'.game.home_score = some (s.game.home_score.getD 0) ∧
        s'.game.away_score = some (s.game.away_score.getD 0 + 1)) ∧
    (f.eventType = .own_goal →
      ∃ s' ev, addEvent s f i = .ok s' ∧ s'.events = s.events ++ [ev] ∧
        ev.team_id = none ∧
        s'.game.home_score = some (s.game.home_score.getD 0 + 1) ∧
        s'.game.away_score = some (s.game.away_score.getD 0)) := by
  have hah : ¬s.game.away_team_id = s.game.home_team_id := fun hh =>
    hne hh.symm
  constructor
  · intro htype
    have hsc : f.eventType ∈ SCORE_EVENT_TYPES := by
      rcases htype with h1 | h1 <;> rw [h1] <;> decide
    rcases htype with h1 | h1 <;>
      simp only [addEvent, hm, hteam, if_pos hsc, h1, if_neg hah,
        or_false, false_or, if_pos rfl, if_true, reduceIte] <;>
      exact ⟨_, _, rfl, rfl, rfl, rfl, rfl⟩
  · intro htype
    have hsc : f.eventType ∈ SCORE_EVENT_TYPES := by
      rw [htype]; decide
    simp only [addEvent, hm, hteam, if_pos hsc, htype, if_neg hah,
      reduceIte]
    exact ⟨_, _, rfl, rfl, rfl, rfl, rfl⟩

/-- Witness for C10: a goal with the empty team choice on a 10-vs-20 match
posts `team_id` null and bumps the away score from 0 to 1. -/
theorem c10_witness :
    ∃ s' ev,
      addEvent ⟨⟨1, some 10, some 20, some 0, some 0, "live"⟩, [], []⟩
          ⟨1, some 5, .goal, .empty, none, none, none⟩ 1 = .ok s' ∧
        s'.events =
          (⟨⟨1, some 10, some 20, some 0, some 0, "live"⟩, [],
            []⟩ : PageState).events ++ [ev] ∧
        ev.team_id = none ∧
        s'.game.home_score =
          some ((⟨⟨1, some 10, some 20, some 0, some 0, "live"⟩, [],
            []⟩ : PageState).game.home_score.getD 0) ∧
        s'.game.away_score =
          some ((⟨⟨1, some 10, some 20, some 0, some 0, "live"⟩, [],
            []⟩ : PageState).game.away_score.getD 0 + 1) :=
  (c10_empty_team_still_increments
    ⟨⟨1, some 10, some 20, some 0, some 0, "live"⟩, [], []⟩
    ⟨1, some 5, .goal, .empty, none, none, none⟩ 1 5
    (by decide) rfl rfl).1 (Or.inl rfl)

/-- A closed state whose match is `finished`, used to refute C5. -/
def c5x_s : PageState :=
  ⟨⟨1, some 1, some 2, some 2, some 2, "finished"⟩, [], []⟩

/-- Counterexample to C5 as stated: on a `finished` match the event append
is not rejected — it succeeds and mutates the ledger (no `MatchClosedError`
exists anywhere in the handlers). -/
theorem c5_counterexample :
    c5x_s.game.status = "finished" ∧
    (addEvent c5x_s ⟨1, some 30, .yellow_card, .home, none, none, none⟩
        3).map (fun t => t.events.length) = .ok 1 := by
  exact ⟨rfl, rfl⟩

/-- Claim C5 (amended): the handlers perform no status gating at all —
event append, event delete and lineup delete all proceed identically when
the match status is finished, cancelled or technical_defeat (there is no
`MatchClosedError` path). -/
theorem c5_no_status_gating :
    (∀ (s : PageState) (f : EventForm) (i m : Int),
        s.game.status ∈
          (["finished", "cancelled", "technical_defeat"] : List String) →
        f.minute = some m →
        ∃ s', addEvent s f i = .ok s' ∧
          s'.events.length = s.events.length + 1) ∧
    (∀ (s : PageState) (eid : Int),
        s.game.status ∈
          (["finished", "cancelled", "technical_defeat"] : List String) →
        (deleteEvent s eid).events =
          s.events.filter (fun e => !(e.id == eid))) ∧
    (∀ (s : PageState) (lid : Int),
        s.game.status ∈
          (["finished", "cancelled", "technical_defeat"] : List String) →
        (deleteLineup s lid).lineup =
          s.lineup.filter (fun e => !(e.id == lid))) := by
  refine ⟨?_, ?_, ?_⟩
  · intro s f i m _ hm
    simp only [addEvent, hm]
    exact ⟨_, rfl, by simp⟩
  · intro s eid _
    simp only [deleteEvent]
    cases s.events.find? (fun e => e.id == eid) with
    | none => rfl
    | some ev =>
        dsimp only
        by_cases hsc : ev.event_type ∈ SCORE_EVENT_TYPES
        · rw [if_pos hsc]
        · rw [if_neg hsc]
  · intro s lid _
    rfl

/-- Witness for C5 (amended): the three operations all proceed on the
concrete finished match. -/
theorem c5_witness :
    ∃ s', addEvent c5x_s ⟨2, some 77, .goal, .home, none, none, none⟩ 4 =
        .ok s' ∧ s'.events.length = c5x_s.events.length + 1 :=
  c5_no_status_gating.1 c5x_s
    ⟨2, some 77, .goal, .home, none, none, none⟩ 4 77 (by decide) rfl

/-- A closed state and form with a negative minute and a half outside
`{1, 2, extra}`, used to refute C7. -/
def c7x_f : EventForm := ⟨99, some (-5), .yellow_card, .home, none, none,
  none⟩

/-- Counterexample to C7 as stated: an append with minute `-5` and half
`99` is not rejected — the event is posted carrying exactly those values. -/
theorem c7_counterexample :
    ((-5 : Int) < 0) ∧
    (addEvent ⟨⟨1, some 1, some 2, some 0, some 0, "live"⟩, [], []⟩ c7x_f
        1).map (fun t => t.events.map (fun e => (e.minute, e.half))) =
      .ok [(-5, 99)] := by
  exact ⟨by decide, rfl⟩

/-- Claim C7 (amended): the only local validation in `addEvent` is that the
minute input is non-empty (rejected with the message `Укажите минуту`, with
no mutation); any numeric minute — negative included — and any half value
are accepted and posted. -/
theorem c7_only_empty_minute_rejected :
    (∀ (s : PageState) (f : EventForm) (i : Int), f.minute = none →
        addEvent s f i = .error "Укажите минуту") ∧
    (∀ (s : PageState) (f : EventForm) (i m : Int), f.minute = some m →
        ∃ s' ev, addEvent s f i = .ok s' ∧ s'.events = s.events ++ [ev] ∧
          ev.minute = m ∧ ev.half = f.half) := by
  constructor
  · intro s f i hm
    simp only [addEvent, hm]
  · intro s f i m hm
    simp only [addEvent, hm]
    exact ⟨_, _, rfl, rfl, rfl, rfl⟩

/-- Witness for C7 (amended): the empty minute is rejected, and a concrete
negative minute with half 99 is accepted. -/
theorem c7_witness :
    addEvent ⟨⟨1, some 1, some 2, some 0, some 0, "live"⟩, [], []⟩
        ⟨1, none, .goal, .home, none, none, none⟩ 1 =
      .error "Укажите минуту" :=
  c7_only_empty_minute_rejected.1
    ⟨⟨1, some 1, some 2, some 0, some 0, "live"⟩, [], []⟩
    ⟨1, none, .goal, .home, none, none, none⟩ 1 rfl

/-- A closed state with an empty lineup registry, used to refute C4. -/
def c4x_s : PageState :=
  ⟨⟨1, some 1, some 2, some 0, some 0, "live"⟩, [], []⟩

/-- Counterexample to C4 as stated: appending a goal whose primary
participant (player 5) is not rostered anywhere does not fail with a
ValidationError — the append succeeds and the event is posted with
`player_id` null. -/
theorem c4_counterexample :
    (addEvent c4x_s ⟨1, some 7, .goal, .home, some 5, none, none⟩ 1).map
        (fun t => t.events.map (fun e => (e.id, e.player_id))) =
      .ok [(1, none)] := by
  exact rfl

/-- Claim C4 (amended): a participant reference that does not resolve in
the lineup is silently posted as null (primary, secondary and assist
alike); the append succeeds and the ledger is mutated — no ValidationError
is raised. -/
theorem c4_unrostered_participant_posted_null (s : PageState)
    (f : EventForm) (i m : Int) (hm : f.minute = some m) :
    ∃ s' ev, addEvent s f i = .ok s' ∧ s'.events = s.events ++ [ev] ∧
      (findInLineup s.lineup f.playerId = none → ev.player_id = none) ∧
      (findInLineup s.lineup f.player2Id = none → ev.player2_id = none) ∧
      (findInLineup s.lineup f.assistId = none → ev.assist_player_id =
        none) := by
  simp only [addEvent, hm]
  refine ⟨_, _, rfl, rfl, ?_, ?_, ?_⟩ <;>
    · intro hp
      simp only [hp]
      rfl

/-- Witness for C4 (amended): with the concrete empty lineup, an append
referencing players 5, 6 and 7 posts all three references as null. -/
theorem c4_witness :
    ∃ s' ev,
      addEvent c4x_s ⟨1, some 7, .goal, .home, some 5, some 6, some 7⟩ 1 =
        .ok s' ∧ s'.events = c4x_s.events ++ [ev] ∧
      (findInLineup c4x_s.lineup (some 5) = none → ev.player_id = none) ∧
      (findInLineup c4x_s.lineup (some 6) = none → ev.player2_id = none) ∧
      (findInLineup c4x_s.lineup (some 7) = none → ev.assist_player_id =
        none) :=
  c4_unrostered_participant_posted_null c4x_s
    ⟨1, some 7, .goal, .home, some 5, some 6, some 7⟩ 1 7 rfl

/-- A closed state whose lineup holds a single `substitute` of the home
team (player 5), used to refute C8. -/
def c8x_s : PageState :=
  ⟨⟨1, some 1, some 2, some 0, some 0, "live"⟩,
    [⟨1, 5, some "Sub Player", 1, "substitute", some 7, false, none, none⟩],
    []⟩

/-- Counterexample to C8 as stated: a substitution whose primary
participant is the rostered substitute (player 5, `lineup_type`
"substitute") is not rejected — `addEvent` posts it with `player_id` 5. -/
theorem c8_counterexample :
    c8x_s.lineup.map (fun e => (e.player_id, e.lineup_type)) =
      [(5, "substitute")] ∧
    (addEvent c8x_s ⟨1, some 60, .substitution, .home, some 5, none, none⟩
        9).map (fun t => t.events.map (fun e => (e.event_type,
          e.player_id))) =
      .ok [(.substitution, some 5)] := by
  exact ⟨rfl, rfl⟩

/-- Claim C8 (amended): the starter/substitute rule is enforced only by the
dropdown contents — for a substitution the primary combobox offers exactly
the `starter` entries of the selected team (every non-empty option comes
from a starter of that team) — while `addEvent` itself performs no role
validation and accepts a substitution regardless of the primary's role. -/
theorem c8_substitution_roles_ui_only :
    (∀ (l : List LineupItem) (tid otid : Option Int),
        playerOptionsFor l .substitution tid otid =
          lineupOptions l tid (some "starter")) ∧
    (∀ (l : List LineupItem) (tid : Option Int) (ty : String)
        (o : SelectOption), o ∈ lineupOptions l tid (some ty) →
        o.value ≠ "" →
        ∃ e, e ∈ l ∧ some e.team_id = tid ∧ e.lineup_type = ty ∧
          o.value = toString e.player_id) ∧
    (∀ (s : PageState) (f : EventForm) (i m : Int),
        f.eventType = .substitution → f.minute = some m →
        ∃ s' ev, addEvent s f i = .ok s' ∧ s'.events = s.events ++ [ev] ∧
          ev.player_id = (findInLineup s.lineup f.playerId).map
            (fun e => e.player_id)) := by
  refine ⟨fun l tid otid => rfl, ?_, ?_⟩
  · intro l tid ty o ho hval
    simp only [lineupOptions, List.mem_cons] at ho
    rcases ho with ho | ho
    · exact absurd (congrArg SelectOption.value ho) hval
    · rcases List.mem_map.mp ho with ⟨e, he, heo⟩
      rcases List.mem_filter.mp he with ⟨hel, hcond⟩
      simp only [Bool.and_eq_true, Bool.or_eq_true, Option.isNone_some,
        Bool.false_eq_true, false_or, beq_iff_eq, Option.some.injEq]
        at hcond
      exact ⟨e, hel, hcond.1, hcond.2.symm,
        (congrArg SelectOption.value heo).symm⟩
  · intro s f i m _ hm
    simp only [addEvent, hm]
    exact ⟨_, _, rfl, rfl, rfl⟩

/-- Witness for C8 (amended): on the concrete one-substitute lineup the
substitution primary dropdown offers no players (only the empty option),
and the append with the substitute as primary still succeeds. -/
theorem c8_witness :
    playerOptionsFor c8x_s.lineup .substitution (some 1) (some 2) =
      lineupOptions c8x_s.lineup (some 1) (some "starter") ∧
    ∃ s' ev,
      addEvent c8x_s ⟨1, some 60, .substitution, .home, some 5, none, none⟩
          9 = .ok s' ∧ s'.events = c8x_s.events ++ [ev] ∧
        ev.player_id = (findInLineup c8x_s.lineup (some 5)).map
          (fun e => e.player_id) :=
  ⟨c8_substitution_roles_ui_only.1 c8x_s.lineup (some 1) (some 2),
   c8_substitution_roles_ui_only.2.2 c8x_s
     ⟨1, some 60, .substitution, .home, some 5, none, none⟩ 9 60 rfl rfl⟩

/-- A closed state with a manually entered scoreboard (1,0) and an empty
ledger, used to refute C2. -/
def c2x_s : PageState :=
  ⟨⟨1, some 1, some 2, some 1, some 0, "live"⟩, [], []⟩

/-- Counterexample to C2 as stated: on a match whose stored scoreboard
(1,0) was entered manually over an empty ledger, appending a home goal and
deleting it leaves the scoreboard at the recomputed (0,0), not at the
pre-append (1,0). -/
theorem c2_counterexample :
    (c2x_s.game.home_score, c2x_s.game.away_score) =
      (some 1, some 0) ∧
    (addEvent c2x_s ⟨1, some 10, .goal, .home, none, none, none⟩ 1).map
        (fun t => ((deleteEvent t 1).game.home_score,
                   (deleteEvent t 1).game.away_score)) =
      .ok (some 0, some 0) ∧
    ((some (0 : Int), some (0 : Int)) ≠
      (c2x_s.game.home_score, c2x_s.game.away_score)) := by
  exact ⟨rfl, rfl, by decide⟩

/-- Deleting a freshly appended score-affecting event from a state whose
game row still has the original team ids restores the ledger and stores the
recomputation over the original events. -/
theorem deleteEvent_append_fresh (s0 : PageState) (g' : GameDetail)
    (ev : EventItem) (eid : Int) (hid : ev.id = eid)
    (hfresh : ∀ e ∈ s0.events, e.id ≠ eid)
    (hsc : ev.event_type ∈ SCORE_EVENT_TYPES)
    (hh : g'.home_team_id = s0.game.home_team_id)
    (ha : g'.away_team_id = s0.game.away_team_id) :
    deleteEvent ⟨g', s0.lineup, s0.events ++ [ev]⟩ eid =
      ⟨patchScore g' (recomputeScore s0.game s0.events).1
         (recomputeScore s0.game s0.events).2, s0.lineup, s0.events⟩ := by
  have hnone : s0.events.find? (fun e => e.id == eid) = none :=
    List.find?_eq_none.mpr (fun x hx => by
      simp only [beq_iff_eq]
      exact hfresh x hx)
  have hfind1 : List.find? (fun e => e.id == eid) [ev] = some ev := by
    simp [hid]
  have hfilter : (s0.events ++ [ev]).filter (fun e => !(e.id == eid)) =
      s0.events := by
    rw [List.filter_append]
    have h1 : s0.events.filter (fun e => !(e.id == eid)) = s0.events :=
      List.filter_eq_self.mpr (fun a ha' => by
        simp only [Bool.not_eq_true', beq_eq_false_iff_ne, ne_eq]
        exact hfresh a ha')
    have h2 : List.filter (fun e => !(e.id == eid)) [ev] = [] := by
      simp [hid]
    rw [h1, h2, List.append_nil]
  simp only [deleteEvent, List.find?_append, hnone, Option.none_or, hfind1,
    hfilter, if_pos hsc]
  rw [recomputeScore_teams_congr g' s0.game hh ha]

/-- Claim C2 (amended): appending a score-affecting event and then deleting
it restores the pre-append scoreboard, provided the pre-append scoreboard
already equalled the recomputation of the pre-append ledger (the delete
path recomputes from scratch, so a manual score not matching the ledger is
not restored — see the counterexample). -/
theorem c2_append_delete_roundtrip (s : PageState) (f : EventForm)
    (i : Int) (s' : PageState)
    (hok : addEvent s f i = .ok s')
    (hfresh : ∀ e ∈ s.events, e.id ≠ i)
    (hhs : s.game.home_score = some (recomputeScore s.game s.events).1)
    (has : s.game.away_score = some (recomputeScore s.game s.events).2)
    (hsc : f.eventType ∈ SCORE_EVENT_TYPES) :
    (deleteEvent s' i).game.home_score = s.game.home_score ∧
    (deleteEvent s' i).game.away_score = s.game.away_score := by
  cases hm : f.minute with
  | none =>
      simp only [addEvent, hm] at hok
      exact absurd hok (by simp)
  | some m =>
      simp only [addEvent, hm] at hok
      injection hok with hs'
      subst hs'
      rw [deleteEvent_append_fresh s _ _ i rfl hfresh hsc
        (by rw [if_pos hsc]; rfl) (by rw [if_pos hsc]; rfl)]
      exact ⟨hhs.symm, has.symm⟩

/-- Witness for C2 (amended): a ledger-consistent (0,0) match; appending a
home goal and deleting it returns the scoreboard to (0,0). -/
theorem c2_witness :
    (deleteEvent ⟨⟨1, some 1, some 2, some 1, some 0, "live"⟩, [],
        [⟨1, 1, 10, .goal, some 1, none, none, none, none, none, none,
          none⟩]⟩ 1).game.home_score =
      (⟨⟨1, some 1, some 2, some 0, some 0, "live"⟩, [],
        []⟩ : PageState).game.home_score ∧
    (deleteEvent ⟨⟨1, some 1, some 2, some 1, some 0, "live"⟩, [],
        [⟨1, 1, 10, .goal, some 1, none, none, none, none, none, none,
          none⟩]⟩ 1).game.away_score =
      (⟨⟨1, some 1, some 2, some 0, some 0, "live"⟩, [],
        []⟩ : PageState).game.away_score :=
  c2_append_delete_roundtrip
    ⟨⟨1, some 1, some 2, some 0, some 0, "live"⟩, [], []⟩
    ⟨1, some 10, .goal, .home, none, none, none⟩ 1
    ⟨⟨1, some 1, some 2, some 1, some 0, "live"⟩, [],
      [⟨1, 1, 10, .goal, some 1, none, none, none, none, none, none,
        none⟩]⟩
    rfl (by simp) rfl rfl (by decide)
